import Mathlib

/-!
# Geo-Guardian backend: shallow embedding and verification

A shallow embedding of the Geo-Guardian backend (an Express + Mongoose +
Socket.IO service for polygonal danger zones) and proofs about its
observable behaviour.

Coordinates are modelled as rationals (`Rat`): the JavaScript source works
with IEEE doubles, but every comparison the verified claims depend on is
exact equality, arithmetic on plain decimal literals, or an order
comparison, all of which coincide with exact rational arithmetic on the
inputs involved.

Sources embedded:
* `src/models/Zone.js` — the zone schema, its polygon validator and the
  virtual `area` getter;
* `src/routes/zoneRoutes.js` — the POST `/`, GET `/nearby`,
  POST `/check` and DELETE `/:id` handlers;
* `src/socket/socketHandler.js` — the `mobile_danger_alert` handler.
-/

/-! ## JavaScript values and truthiness

Request-body fields arrive as arbitrary JSON values.  `JVal` models the
scalar shapes the handlers inspect: absent (`undefined`), `null`, a
number, or a string.  (Object/array-valued fields are always truthy in
JavaScript and none of the embedded guards receive them.) -/

inductive JVal where
  | undef
  | nul
  | num (q : Rat)
  | str (s : String)
deriving DecidableEq, Repr

/-- JavaScript truthiness of a `JVal`: `undefined`, `null`, the number 0
and the empty string are falsy; every other modelled value is truthy. -/
def JVal.truthy : JVal → Bool
  | .undef => false
  | .nul => false
  | .num q => q != 0
  | .str s => s != ""

/-- JavaScript `String.prototype.trim()`: strip leading and trailing
whitespace (modelled over the character list). -/
def jsTrim (s : String) : String :=
  ⟨((s.data.dropWhile Char.isWhitespace).reverse.dropWhile Char.isWhitespace).reverse⟩

/-! ## `parseInt` / `parseFloat`

The handlers convert query-parameter strings with JavaScript's
`parseInt` and `parseFloat`.  Both strip leading whitespace, accept an
optional sign, read the longest numeric prefix, and yield `NaN` (here
`none`) when no digit is consumed.  We model them on plain decimal
literals; exponent notation, `Infinity` and non-decimal radixes do not
occur in the inputs the proofs evaluate. -/

/-- Numeric value of a digit string (most significant first). -/
def digitsToNat (ds : List Char) : Nat :=
  ds.foldl (fun a c => a * 10 + (c.toNat - 48)) 0

/-- Split an optional leading sign off a character list, returning the
sign as `1` or `-1` together with the remainder. -/
def splitSign : List Char → Int × List Char
  | '-' :: r => (-1, r)
  | '+' :: r => (1, r)
  | r => (1, r)

/-- `parseFloat(s)`: optional sign, integer digits, an optional decimal
point with fraction digits; at least one digit must be consumed, else
`none` (models `NaN`). -/
def parseFloat? (s : String) : Option Rat :=
  let (sign, rest) := splitSign (jsTrim s).toList
  let intDs := rest.takeWhile Char.isDigit
  let rest2 := rest.drop intDs.length
  let fracDs := match rest2 with
    | '.' :: r => r.takeWhile Char.isDigit
    | _ => []
  if intDs.isEmpty && fracDs.isEmpty then none
  else some ((sign : Rat) * ((digitsToNat intDs : Rat) + (digitsToNat fracDs : Rat) / ((10 : Rat) ^ fracDs.length)))

/-- `parseFloat` applied to a body field: a number converts to itself,
a string is parsed, `undefined`/`null` give `NaN` (`none`). -/
def JVal.parseFloat : JVal → Option Rat
  | .num q => some q
  | .str s => parseFloat? s
  | _ => none

/-! ## Data model (`src/models/Zone.js`)

A zone record: generated id, trimmed name, GeoJSON polygon geometry and a
`properties` map defaulting to empty.  Vertices are (longitude, latitude)
pairs; `coordinates` is a list of rings, the first being the outer ring.
The schema's `createdAt`/`updatedAt` timestamps play no role in any
verified claim and are omitted. -/

structure Geometry where
  type : String
  coordinates : List (List (Rat × Rat))
deriving DecidableEq, Repr

structure Zone where
  id : String
  name : String
  geometry : Geometry
  properties : List (String × String)
deriving DecidableEq, Repr

/-- The schema validator on `geometry.coordinates`
(`src/models/Zone.js:19-25`): the outer ring must exist, have at least 4
vertices, and its first vertex must equal its last vertex in both
coordinates (exact equality). -/
def coordinatesValidator (coords : List (List (Rat × Rat))) : Bool :=
  match coords with
  | [] => false
  | ring :: _ =>
    if ring.length < 4 then false
    else
      match ring.head?, ring.getLast? with
      | some first, some last => first.1 == last.1 && first.2 == last.2
      | _, _ => false

/-- Full schema validation run by `newZone.save()`: `geometry.type` is
required and must be the enum value `"Polygon"`, and the coordinates must
satisfy `coordinatesValidator`. -/
def geometryValid (g : Geometry) : Bool :=
  g.type == "Polygon" && coordinatesValidator g.coordinates

/-- Virtual `area` getter (`src/models/Zone.js:45-52`): shoelace loop over
consecutive vertices of the outer ring, `Math.abs(area / 2)` at the end. -/
def polygonArea (ring : List (Rat × Rat)) : Rat :=
  let s := (List.range (ring.length - 1)).foldl
    (fun area i =>
      area + ((ring.getD i (0, 0)).1 * (ring.getD (i + 1) (0, 0)).2
        - (ring.getD (i + 1) (0, 0)).1 * (ring.getD i (0, 0)).2)) 0
  |s / 2|

/-- The virtual applied to a zone: the getter reads
`this.geometry.coordinates[0]`. -/
def Zone.area (z : Zone) : Rat :=
  polygonArea (z.geometry.coordinates.headD [])

/-! ## POST `/api/zones` (`src/routes/zoneRoutes.js:9-57`)

The handler destructures only `name` and `geometry` from the body — any
`properties` the caller sends never reach the model constructor, so the
schema default (empty map) applies to every zone created via the API. -/

/-- A zone-creation request body.  `properties` is carried to show the
handler ignores it. -/
structure CreateBody where
  name : JVal
  geometry : Option Geometry
  properties : Option (List (String × String))
deriving DecidableEq, Repr

inductive CreateOutcome where
  /-- Status 400 "Name and geometry are required" -/
  | missingFields
  /-- Status 400 "Invalid zone name" -/
  | invalidName
  /-- Status 400 "Invalid zone data" — mongoose `ValidationError` on save -/
  | validationError
  /-- Status 201 "Zone created successfully" -/
  | created (z : Zone)
deriving DecidableEq, Repr

/-- HTTP status of a creation outcome. -/
def CreateOutcome.status : CreateOutcome → Nat
  | .missingFields => 400
  | .invalidName => 400
  | .validationError => 400
  | .created _ => 201

/-- The POST `/` handler.  `newId` stands for the ObjectId the database
generates.  Guard order follows the source: `!name || !geometry` first,
then the typeof/trim check on the name, then `save()` which runs schema
validation and either persists the record or raises `ValidationError`.
(The final match arm can only fire with a non-string name: the earlier
guard already ensured the geometry is present and truthy.) -/
def createHandler (store : List Zone) (newId : String) (body : CreateBody) :
    CreateOutcome × List Zone :=
  if !body.name.truthy || body.geometry.isNone then (.missingFields, store)
  else
    match body.name, body.geometry with
    | .str s, some g =>
      if (jsTrim s).length == 0 then (.invalidName, store)
      else if geometryValid g then
        let z : Zone := { id := newId, name := jsTrim s, geometry := g, properties := [] }
        (.created z, store ++ [z])
      else (.validationError, store)
    | _, _ => (.invalidName, store)

/-! ## GET `/api/zones/nearby` (`src/routes/zoneRoutes.js:80-117`)

Query parameters arrive as strings (or are absent).  The guard is
`if (!lat || !lng)`; any non-empty string — numeric or not — passes it.
The handler then issues a `$near` query with
`[parseFloat(lng), parseFloat(lat)]` and `parseInt(maxDistance)`; a `NaN`
in the point or the distance makes the database reject the query, which
the catch block surfaces as a 500, not a 400. -/

/-- One ray-casting step for the edge `a`–`b`: toggle `inside` when the
horizontal ray from `p` crosses the edge. -/
def rayCastStep (p a b : Rat × Rat) (inside : Bool) : Bool :=
  if (decide (a.2 > p.2) != decide (b.2 > p.2))
      && decide (p.1 < (b.1 - a.1) * (p.2 - a.2) / (b.2 - a.2) + a.1) then
    !inside
  else inside

/-- Ray-casting containment test over a closed ring (consecutive-edge
form; the ring is stored closed, first vertex = last vertex). -/
def pointInPolygon (p : Rat × Rat) (ring : List (Rat × Rat)) : Bool :=
  (ring.zip (ring.drop 1)).foldl (fun inside e => rayCastStep p e.1 e.2 inside) false

/-- Containment of the point `(lng, lat)` in a zone's outer ring — the
filter semantics the `$geoIntersects` query implements over the store. -/
def Zone.containsPoint (z : Zone) (lng lat : Rat) : Bool :=
  pointInPolygon (lng, lat) (z.geometry.coordinates.headD [])

/-! ## POST `/api/zones/check` (`src/routes/zoneRoutes.js:120-161`)

Body fields `lat`, `lng` are JSON values; the guard `if (!lat || !lng)`
rejects any falsy value — including the number 0, a perfectly valid
coordinate. -/

inductive CheckOutcome where
  /-- Status 400 "Latitude and longitude are required" -/
  | badRequest
  /-- Status 500 "Failed to check location" — the `$geoIntersects` query raised
  (e.g. a `NaN` coordinate) -/
  | serverError
  /-- Status 200 with `{success, isInDangerZone, dangerousZones, message}` -/
  | ok (isInDangerZone : Bool) (dangerousZones : List Zone) (message : String)
deriving DecidableEq, Repr

/-- The POST `/check` handler over a store of zones. -/
def checkHandler (store : List Zone) (lat lng : JVal) : CheckOutcome :=
  if !lat.truthy || !lng.truthy then .badRequest
  else
    match lat.parseFloat, lng.parseFloat with
    | some la, some ln =>
      let zones := store.filter (fun z => z.containsPoint ln la)
      let isInDangerZone : Bool := decide (0 < zones.length)
      .ok isInDangerZone zones
        (if isInDangerZone then
          "Warning: Inside " ++ toString zones.length ++ " danger zone(s)"
        else "Location is safe")
    | _, _ => .serverError

/-! ## DELETE `/api/zones/:id` (`src/routes/zoneRoutes.js:203-236`)

`Zone.findByIdAndDelete(id)` first casts the path parameter to an
ObjectId; a string that cannot be cast raises `CastError`, which the
handler maps to a 400.  A castable id that matches no document yields
`null`, mapped to 404. -/

/-- Mongoose's ObjectId cast on a string: the canonical 24-character
hexadecimal form, or any 12-character string (taken as raw bytes).
Ids the database generates are always the 24-hex form. -/
def isValidObjectId (s : String) : Bool :=
  (s.length == 24 && s.toList.all (fun c => c.isDigit || ('a' ≤ c && c ≤ 'f') || ('A' ≤ c && c ≤ 'F')))
    || s.length == 12

/-- `findByIdAndDelete` on the store: find the document with the given id
(ids are unique in the database — `_id` is the primary key) and remove
it, returning the deleted record. -/
def findByIdAndDelete (store : List Zone) (id : String) :
    Option Zone × List Zone :=
  match store.find? (fun z => z.id == id) with
  | none => (none, store)
  | some z => (some z, store.eraseP (fun w => w.id == id))

inductive DeleteOutcome where
  /-- Status 400 "Invalid zone ID format" — `CastError` -/
  | invalidId
  /-- Status 404 "Zone not found" -/
  | notFound
  /-- Status 200 "Zone deleted successfully" with the deleted record -/
  | ok (z : Zone)
deriving DecidableEq, Repr

/-- The DELETE `/:id` handler. -/
def deleteHandler (store : List Zone) (id : String) :
    DeleteOutcome × List Zone :=
  if !isValidObjectId id then (.invalidId, store)
  else
    match findByIdAndDelete store id with
    | (none, s) => (.notFound, s)
    | (some z, s) => (.ok z, s)

/-! ## Socket.IO alert relay (`src/socket/socketHandler.js`)

On `mobile_danger_alert` from any connected socket, the handler calls
`io.emit('admin_alert', ...)`.  In Socket.IO, `io.emit` delivers to every
connection in the live set — the emitting socket included; excluding the
sender would require `socket.broadcast.emit`, which the source does not
use. -/

abbrev ConnId := Nat

/-- `io.emit`: the recipients are the whole live set. -/
def ioEmit (live : List ConnId) : List ConnId := live

/-- `socket.broadcast.emit` (for contrast; not what the handler calls):
every live connection except the emitting socket. -/
def socketBroadcastEmit (live : List ConnId) (self : ConnId) : List ConnId :=
  live.filter (fun c => c != self)

/-- Recipients of the `admin_alert` broadcast triggered by a
`mobile_danger_alert` from `emitter`: the handler uses `io.emit`, so the
emitter's identity is not consulted. -/
def alertRecipients (live : List ConnId) (emitter : ConnId) : List ConnId :=
  ioEmit live

/-- Optional location payload relayed with an alert (passed through
opaquely by the handler). -/
structure Location where
  lat : Rat
  lng : Rat
deriving DecidableEq, Repr

/-- Inbound `mobile_danger_alert` payload: an object whose `message` and
`location` fields may be absent. -/
structure AlertData where
  message : Option String
  location : Option Location
deriving DecidableEq, Repr

/-- Outbound `admin_alert` event. -/
structure AdminAlert where
  message : String
  location : Option Location
  timestamp : Nat
  severity : String
deriving DecidableEq, Repr

/-- JavaScript `a || b` on an optional string: `b` when `a` is absent or
the empty string (the empty string is falsy). -/
def jsOrStr (v : Option String) (dflt : String) : String :=
  match v with
  | some s => if s == "" then dflt else s
  | none => dflt

/-- The `mobile_danger_alert` handler body: normalize the payload and
stamp it.  `now` models `new Date().toISOString()` (server-assigned at
publish time).  `data.location || null` keeps any object (objects are
truthy) and turns an absent location into `null`. -/
def mobileDangerAlertEvent (now : Nat) (data : AlertData) : AdminAlert :=
  { message := jsOrStr data.message "Tourist entered Danger Zone"
    location := data.location
    timestamp := now
    severity := "critical" }

/-- Outcome of one `mobile_danger_alert` delivery. -/
inductive AlertOutcome where
  /-- The handler ran `io.emit('admin_alert', ...)` with this event. -/
  | emitted (e : AdminAlert)
  /-- The handler threw before emitting: with a `null`/`undefined`
  payload, `data.message` raises a TypeError (the handler has no
  try/catch and Socket.IO does not catch listener exceptions), so
  nothing is broadcast. -/
  | thrown
deriving DecidableEq, Repr

/-- The full `mobile_danger_alert` handler: `data` is `none` when the
client emitted the event with no payload (or `null`); any object
payload is normalized and emitted. -/
def mobileDangerAlertHandler (now : Nat) (data : Option AlertData) : AlertOutcome :=
  match data with
  | none => .thrown
  | some d => .emitted (mobileDangerAlertEvent now d)

/-- A sample stored zone (canonical 24-hex ObjectId, closed square ring)
used to instantiate theorems at concrete inputs. -/
def zoneA : Zone :=
  { id := "aaaaaaaaaaaaaaaaaaaaaaaa", name := "Zone A",
    geometry := { type := "Polygon", coordinates := [[(0, 0), (1, 0), (1, 1), (0, 1), (0, 0)]] },
    properties := [] }

/-! ## Helper lemmas -/

/-- A left fold of additions over `List.range` is the corresponding
`Finset.range` sum. -/
theorem foldl_range_add_eq_sum (f : ℕ → ℚ) (n : ℕ) :
    (List.range n).foldl (fun a i => a + f i) 0 = ∑ i ∈ Finset.range n, f i := by
  induction n with
  | zero => simp
  | succ n ih =>
    rw [List.range_succ, List.foldl_append, ih, Finset.sum_range_succ]
    simp

/-- In a store with pairwise-distinct ids, `find?` on the id of a member
returns that member. -/
theorem find_id_of_mem {store : List Zone} {z : Zone}
    (hnd : (store.map Zone.id).Nodup) (hz : z ∈ store) :
    store.find? (fun w => w.id == z.id) = some z := by
  induction store with
  | nil => cases hz
  | cons x xs ih =>
    rw [List.map_cons, List.nodup_cons] at hnd
    rcases List.mem_cons.mp hz with hzx | hzxs
    · subst hzx
      simp [List.find?_cons]
    · have hne : (x.id == z.id) = false := by
        apply beq_eq_false_iff_ne.mpr
        intro hEq
        exact hnd.1 (hEq ▸ List.mem_map_of_mem Zone.id hzxs)
      rw [List.find?_cons, hne]
      exact ih hnd.2 hzxs

/-- In a store with pairwise-distinct ids, after erasing the first zone
matching an id, no zone with that id remains. -/
theorem eraseP_id_ne {store : List Zone} (id : String)
    (hnd : (store.map Zone.id).Nodup) :
    ∀ w ∈ store.eraseP (fun w => w.id == id), w.id ≠ id := by
  induction store with
  | nil => intro w hw; cases hw
  | cons x xs ih =>
    rw [List.map_cons, List.nodup_cons] at hnd
    by_cases hx : x.id = id
    · rw [List.eraseP_cons_of_pos (by simp [hx])]
      intro w hw hwid
      have hmem : w.id ∈ xs.map Zone.id := List.mem_map_of_mem _ hw
      rw [hwid, ← hx] at hmem
      exact hnd.1 hmem
    · rw [List.eraseP_cons_of_neg (by simp [hx])]
      intro w hw
      rcases List.mem_cons.mp hw with h | h
      · exact h ▸ hx
      · exact ih hnd.2 w h

/-! ## Claim C8 — shoelace area -/

/-- C8: for every polygon ring, `polygonArea` returns the planar shoelace
value — the absolute value of half the sum over consecutive vertex pairs
(i, i+1) of `x_i * y_{i+1} - x_{i+1} * y_i` — and the result is
non-negative. -/
theorem polygonArea_shoelace_abs (ring : List (Rat × Rat)) :
    polygonArea ring =
      |(∑ i ∈ Finset.range (ring.length - 1),
        ((ring.getD i (0, 0)).1 * (ring.getD (i + 1) (0, 0)).2
          - (ring.getD (i + 1) (0, 0)).1 * (ring.getD i (0, 0)).2)) / 2| ∧
    0 ≤ polygonArea ring := by
  constructor
  · unfold polygonArea
    rw [foldl_range_add_eq_sum
      (fun i => (ring.getD i (0, 0)).1 * (ring.getD (i + 1) (0, 0)).2
        - (ring.getD (i + 1) (0, 0)).1 * (ring.getD i (0, 0)).2)
      (ring.length - 1)]
  · exact abs_nonneg _

/-! ## Claim C2 — alert fan-out includes the emitter -/

/-- C2 counterexample: with live connections 0 and 1 where connection 0
emits the alert, the broadcast reaches the whole live set — in
particular the emitting connection 0 itself receives the event,
contradicting the claim that the emitter is excluded. -/
theorem alert_broadcast_reaches_emitter :
    alertRecipients [0, 1] 0 = [0, 1] ∧ (0 : ConnId) ∈ alertRecipients [0, 1] 0 := by
  exact ⟨rfl, by decide⟩

/-- C2 (amended): the broadcast triggered by an inbound alert is delivered
to exactly the live set of connections — every live connection receives
it, the emitter included (`io.emit`, not `socket.broadcast.emit`). -/
theorem alert_fanout_all_live (live : List ConnId) (emitter c : ConnId) :
    c ∈ alertRecipients live emitter ↔ c ∈ live := Iff.rfl

/-! ## Claim C6 — alert normalization -/

/-- C6 counterexample: a payload carrying the present (but empty) message
`""` is broadcast with the sentinel message, not with the given message —
the `||` default also replaces a present empty string. -/
theorem alert_empty_message_defaulted :
    (mobileDangerAlertEvent 0 { message := some "", location := none }).message
        = "Tourist entered Danger Zone" ∧
    (mobileDangerAlertEvent 0 { message := some "", location := none }).message ≠ "" := by
  exact ⟨rfl, by decide⟩

/-- C6 (amended): an inbound alert whose payload is an object is
normalized and emitted, never rejected: severity is the fixed
`"critical"`, the timestamp is server-assigned at publish time, the
location is passed through (absent stays absent), and the message is the
given message when it is present and non-empty, the fixed sentinel
otherwise.  A `null`/`undefined` payload is the exception: the handler
throws reading `data.message` and nothing is broadcast. -/
theorem alert_event_normalization (now : Nat) (data : Option AlertData) :
    (data = none → mobileDangerAlertHandler now data = .thrown) ∧
    (∀ d, data = some d →
      mobileDangerAlertHandler now data = .emitted (mobileDangerAlertEvent now d) ∧
      (mobileDangerAlertEvent now d).severity = "critical" ∧
      (mobileDangerAlertEvent now d).timestamp = now ∧
      (mobileDangerAlertEvent now d).location = d.location ∧
      (d.message = none ∨ d.message = some "" →
        (mobileDangerAlertEvent now d).message = "Tourist entered Danger Zone") ∧
      (∀ s, d.message = some s → s ≠ "" →
        (mobileDangerAlertEvent now d).message = s)) := by
  constructor
  · intro h
    rw [h]
    rfl
  · intro d hd
    rw [hd]
    refine ⟨rfl, rfl, rfl, rfl, ?_, ?_⟩
    · rintro (h | h) <;> simp [mobileDangerAlertEvent, jsOrStr, h]
    · intro s hs hne
      simp [mobileDangerAlertEvent, jsOrStr, hs, hne]

/-- Witness for C6 (amended): a concrete object payload is emitted with
its own message, and the `null` payload case throws. -/
theorem alert_event_normalization_witness :
    (mobileDangerAlertEvent 7 { message := some "help", location := some ⟨1, 2⟩ }).message
        = "help" ∧
    mobileDangerAlertHandler 7 none = .thrown :=
  ⟨((alert_event_normalization 7 (some { message := some "help", location := some ⟨1, 2⟩ })).2
      { message := some "help", location := some ⟨1, 2⟩ } rfl).2.2.2.2.2
    "help" rfl (by decide),
   (alert_event_normalization 7 none).1 rfl⟩

/-! ## Claim C10 — zero coordinates rejected by the check guard -/

/-- C10: any contains-point check request in which `lat` or `lng` is the
number 0 is rejected with the 400 missing-coordinates response — the
falsy guard treats the valid coordinate 0 as absent. -/
theorem check_zero_coordinate_rejected (store : List Zone) (lat lng : JVal)
    (h : lat = .num 0 ∨ lng = .num 0) :
    checkHandler store lat lng = .badRequest := by
  rcases h with h | h <;> subst h <;> simp [checkHandler, JVal.truthy]

/-- Witness for C10 at a concrete request. -/
theorem check_zero_coordinate_rejected_witness :
    checkHandler [] (.num 0) (.num 3) = .badRequest :=
  check_zero_coordinate_rejected [] (.num 0) (.num 3) (Or.inl rfl)

/-! ## Claim C4 — safe-point response -/

/-- C4 counterexample: the point (lng 5, lat 0) lies in no stored zone
(the store is empty), yet the check request is answered with the 400
missing-coordinates response — not the safe 200 response the claim
demands — because latitude 0 is falsy. -/
theorem check_safe_zero_lat_counterexample :
    ([] : List Zone).all (fun z => !(z.containsPoint 5 0)) = true ∧
    checkHandler [] (.num 0) (.num 5) = .badRequest ∧
    checkHandler [] (.num 0) (.num 5) ≠ .ok false [] "Location is safe" := by
  decide

/-- C4 (amended): for every point whose coordinates are nonzero numbers
and which is contained in no stored zone, the contains-point check
returns the success response with `isInDangerZone` false, an empty
`dangerousZones` list and the derived message "Location is safe". -/
theorem check_safe_point_response (store : List Zone) (la ln : Rat)
    (hla : la ≠ 0) (hln : ln ≠ 0)
    (hsafe : ∀ z ∈ store, z.containsPoint ln la = false) :
    checkHandler store (.num la) (.num ln) = .ok false [] "Location is safe" := by
  have hfilter : store.filter (fun z => z.containsPoint ln la) = [] :=
    List.filter_eq_nil_iff.mpr (by intro z hz; simp [hsafe z hz])
  simp [checkHandler, JVal.truthy, JVal.parseFloat, hla, hln, hfilter]

/-- Witness for C4 (amended) at a concrete point and the empty store. -/
theorem check_safe_point_response_witness :
    checkHandler [] (.num 1) (.num 1) = .ok false [] "Location is safe" :=
  check_safe_point_response [] 1 1 (by decide) (by decide)
    (by intro z hz; cases hz)

/-! ## Claim C1 — creation-time polygon validation -/

/-- C1: a creation request carrying a polygon whose outer ring has fewer
than 4 vertices or is not exactly closed is answered with a 400 and
stores nothing — and whenever the name passes its own guards the failure
is precisely the mongoose `ValidationError` branch; conversely a closed
ring with at least 4 vertices passes the validator. -/
theorem create_polygon_validation :
    (∀ (store : List Zone) (newId : String) (body : CreateBody) (g : Geometry),
      body.geometry = some g → coordinatesValidator g.coordinates = false →
      (createHandler store newId body).1.status = 400 ∧
      (createHandler store newId body).2 = store ∧
      (∀ z, (createHandler store newId body).1 ≠ .created z) ∧
      (∀ s, body.name = .str s → (jsTrim s).length ≠ 0 →
        (createHandler store newId body).1 = .validationError)) ∧
    (∀ (ring : List (Rat × Rat)) (rest : List (List (Rat × Rat))),
      4 ≤ ring.length → ring.head? = ring.getLast? →
      coordinatesValidator (ring :: rest) = true) := by
  constructor
  · intro store newId body g hg hbad
    have hgv : geometryValid g = false := by
      simp [geometryValid, hbad]
    unfold createHandler
    rw [hg]
    cases hname : body.name with
    | undef => simp [JVal.truthy, CreateOutcome.status]
    | nul => simp [JVal.truthy, CreateOutcome.status]
    | num q =>
      by_cases hq : q = 0
      · subst hq; simp [JVal.truthy, CreateOutcome.status]
      · simp [JVal.truthy, hq, CreateOutcome.status]
    | str s =>
      by_cases hs : s = ""
      · subst hs
        simp [JVal.truthy, CreateOutcome.status]
        decide
      · by_cases htl : (jsTrim s).length = 0
        · simp [JVal.truthy, hs, htl, CreateOutcome.status]
        · simp [JVal.truthy, hs, htl, hgv, CreateOutcome.status]
  · intro ring rest h4 hcl
    cases ring with
    | nil => simp at h4
    | cons a tl =>
      have hlast : (a :: tl).getLast? = some a := by
        rw [← hcl]; rfl
      have hdef : coordinatesValidator ((a :: tl) :: rest)
          = if (a :: tl).length < 4 then false
            else
              match (a :: tl).head?, (a :: tl).getLast? with
              | some first, some last => first.1 == last.1 && first.2 == last.2
              | _, _ => false := rfl
      rw [hdef, if_neg (Nat.not_lt.mpr h4), List.head?_cons, hlast]
      simp

/-- Witness for C1: a triangle ring (3 vertices) is rejected through the
`ValidationError` branch with the store unchanged, and a closed
4-vertex ring passes the validator. -/
theorem create_polygon_validation_witness :
    (createHandler [] "aaaaaaaaaaaaaaaaaaaaaaaa"
      { name := .str "Zone A",
        geometry := some { type := "Polygon", coordinates := [[(0, 0), (1, 0), (1, 1)]] },
        properties := none }).1 = .validationError ∧
    coordinatesValidator [[(0, 0), (1, 0), (1, 1), (0, 0)]] = true := by
  constructor
  · exact (create_polygon_validation.1 [] "aaaaaaaaaaaaaaaaaaaaaaaa"
      { name := .str "Zone A",
        geometry := some { type := "Polygon", coordinates := [[(0, 0), (1, 0), (1, 1)]] },
        properties := none }
      { type := "Polygon", coordinates := [[(0, 0), (1, 0), (1, 1)]] }
      rfl (by decide)).2.2.2 "Zone A" rfl (by decide)
  · exact create_polygon_validation.2 [(0, 0), (1, 0), (1, 1), (0, 0)] []
      (by decide) (by decide)

/-! ## Claim C9 — created zones have empty properties -/

/-- C9: every zone the create endpoint stores has the empty `properties`
map, and the handler's outcome does not depend on any `properties` field
the caller supplies (it destructures only `name` and `geometry`). -/
theorem created_zone_properties_empty (store : List Zone) (newId : String)
    (body : CreateBody) :
    (∀ z, (createHandler store newId body).1 = .created z → z.properties = []) ∧
    (∀ props, createHandler store newId { body with properties := props }
        = createHandler store newId body) := by
  constructor
  · intro z
    unfold createHandler
    split
    · intro h; cases h
    · split
      · split
        · intro h; cases h
        · split
          · intro h; cases h; rfl
          · intro h; cases h
      · intro h; cases h
  · intro props
    cases body
    rfl

/-- Witness for C9: a creation request supplying a non-empty `properties`
field stores a zone whose `properties` is nonetheless empty. -/
theorem created_zone_properties_empty_witness :
    Zone.properties
      { id := "aaaaaaaaaaaaaaaaaaaaaaaa", name := "Zone A",
        geometry := { type := "Polygon", coordinates := [[(0, 0), (1, 0), (1, 1), (0, 0)]] },
        properties := [] } = [] :=
  (created_zone_properties_empty [] "aaaaaaaaaaaaaaaaaaaaaaaa"
    { name := .str "Zone A",
      geometry := some { type := "Polygon", coordinates := [[(0, 0), (1, 0), (1, 1), (0, 0)]] },
      properties := some [("k", "v")] }).1
    { id := "aaaaaaaaaaaaaaaaaaaaaaaa", name := "Zone A",
      geometry := { type := "Polygon", coordinates := [[(0, 0), (1, 0), (1, 1), (0, 0)]] },
      properties := [] }
    (by decide)

/-! ## Claim C3 — nearby query guard -/

/-- C5: deleting a stored zone id returns the record the first time,
removes every trace of that id from the store, and returns `NotFound`
the second time. -/
theorem delete_twice_observable (store : List Zone) (z : Zone)
    (hz : z ∈ store) (hnd : (store.map Zone.id).Nodup)
    (hvalid : isValidObjectId z.id = true) :
    (deleteHandler store z.id).1 = .ok z ∧
    (∀ w ∈ (deleteHandler store z.id).2, w.id ≠ z.id) ∧
    z ∉ (deleteHandler store z.id).2 ∧
    (deleteHandler (deleteHandler store z.id).2 z.id).1 = .notFound := by
  have hfind := find_id_of_mem hnd hz
  have hdel : deleteHandler store z.id
      = (.ok z, store.eraseP (fun w => w.id == z.id)) := by
    unfold deleteHandler findByIdAndDelete
    rw [hvalid, hfind]
    rfl
  have herase := eraseP_id_ne z.id hnd
  refine ⟨by rw [hdel], ?_, ?_, ?_⟩
  · rw [hdel]
    exact herase
  · rw [hdel]
    intro hmem
    exact herase z hmem rfl
  · rw [hdel]
    have hnone : (store.eraseP (fun w => w.id == z.id)).find?
        (fun w => w.id == z.id) = none :=
      List.find?_eq_none.mpr (fun w hw => by simp [herase w hw])
    unfold deleteHandler findByIdAndDelete
    rw [hvalid, hnone]
    rfl

/-- Witness for C5 on a one-zone store. -/
theorem delete_twice_observable_witness :
    (deleteHandler [zoneA] zoneA.id).1 = .ok zoneA ∧
    (deleteHandler (deleteHandler [zoneA] zoneA.id).2 zoneA.id).1 = .notFound :=
  ⟨(delete_twice_observable [zoneA] zoneA (by decide) (by decide) (by decide)).1,
   (delete_twice_observable [zoneA] zoneA (by decide) (by decide) (by decide)).2.2.2⟩

/-! ## Claim C7 — malformed delete ids -/

/-- C7: a delete request whose id fails the ObjectId cast is answered
with the distinct 400 `InvalidArgument` outcome, and the 404 `NotFound`
outcome occurs exactly for a castable id that matches no stored zone. -/
theorem delete_error_taxonomy (store : List Zone) (id : String) :
    (isValidObjectId id = false → (deleteHandler store id).1 = .invalidId) ∧
    ((deleteHandler store id).1 = .notFound ↔
      isValidObjectId id = true ∧ store.find? (fun w => w.id == id) = none) := by
  cases hv : isValidObjectId id <;>
    rcases hf : store.find? (fun w => w.id == id) with _ | w <;>
    simp [deleteHandler, findByIdAndDelete, hv, hf]

/-- Witness for C7: the malformed id `"x"` is answered with the 400
invalid-id outcome, not 404. -/
theorem delete_error_taxonomy_witness :
    (deleteHandler [zoneA] "x").1 = .invalidId :=
  (delete_error_taxonomy [zoneA] "x").1 (by decide)
